import Mathlib

/-!
# lab-cloudrun: postal code to temperature endpoint

A shallow embedding of `main.go`.

A Go string is modelled by the sequence of code points that the `regexp`
and `strings` packages see when they walk over it, i.e. by a Lean `String`.
-/

namespace LabCloudrun

/-! ## The fragment of the `regexp` package used by the program -/

/-- Compiled regular expressions: the RE2 constructs the two patterns of the
program are built from. A counted repetition is compiled to copies of its
operand, so it needs no constructor. -/
inductive Regex where
  | empty : Regex
  | cls (p : Char → Bool) : Regex
  | beginText : Regex
  | endText : Regex
  | seq (a b : Regex) : Regex

/-- The class `\d`: in RE2 it is the ASCII class `[0-9]`. -/
def perlDigit (c : Char) : Bool := '0' ≤ c && c ≤ '9'

/-- The counted repetition `a{n}`. -/
def Regex.count (a : Regex) : Nat → Regex
  | 0 => Regex.empty
  | n + 1 => Regex.seq a (Regex.count a n)

/-- Run a regular expression at position `i` of the text, `rest` being the text
from `i` on; the result is the position after the match and the text left. -/
def Regex.run : Regex → Nat → List Char → Option (Nat × List Char)
  | Regex.empty, i, rest => some (i, rest)
  | Regex.cls _, _, [] => none
  | Regex.cls p, i, c :: rest => if p c then some (i + 1, rest) else none
  | Regex.beginText, i, rest => if i = 0 then some (i, rest) else none
  | Regex.endText, i, rest => if rest.isEmpty then some (i, rest) else none
  | Regex.seq a b, i, rest =>
    match Regex.run a i rest with
    | none => none
    | some (j, rest1) => Regex.run b j rest1

/-- Leftmost match at or after position `i`: its start and end positions. -/
def Regex.find (re : Regex) : Nat → List Char → Option (Nat × Nat)
  | i, [] =>
    match Regex.run re i [] with
    | some (j, _) => some (i, j)
    | none => none
  | i, c :: rest =>
    match Regex.run re i (c :: rest) with
    | some (j, _) => some (i, j)
    | none => Regex.find re (i + 1) rest

/-- The method `(*Regexp).MatchString`: is there a match anywhere in `s`. -/
def Regex.MatchString (re : Regex) (s : String) : Bool :=
  (Regex.find re 0 s.data).isSome

/-- The loop of `(*Regexp).replaceAll` for a literal replacement: `buf` is the
output so far, `lastMatchEnd` the end of the most recent match and `searchPos`
the position the next search starts from. Every round moves `searchPos` on by
one at least, so `src.length + 1` rounds are enough. -/
def replaceAllLoop (re : Regex) (src repl : List Char) :
    Nat → Nat → Nat → List Char → List Char
  | 0, lastMatchEnd, _, buf => buf ++ src.drop lastMatchEnd
  | fuel + 1, lastMatchEnd, searchPos, buf =>
    if searchPos ≤ src.length then
      match Regex.find re searchPos (src.drop searchPos) with
      | none => buf ++ src.drop lastMatchEnd
      | some (a0, a1) =>
        let buf1 := buf ++ (src.drop lastMatchEnd).take (a0 - lastMatchEnd)
        let buf2 := if a1 > lastMatchEnd ∨ a0 = 0 then buf1 ++ repl else buf1
        let next := if searchPos + 1 > a1 then searchPos + 1 else a1
        replaceAllLoop re src repl fuel a1 next buf2
    else buf ++ src.drop lastMatchEnd

/-- The method `(*Regexp).ReplaceAllString` with a replacement that has no
`$` expansion in it. -/
def Regex.ReplaceAllString (re : Regex) (src repl : String) : String :=
  String.mk (replaceAllLoop re src.data repl.data (src.data.length + 1) 0 0 [])

/-! ## Postal code validation -/

/-- The pattern `[^\d]` of `cleanCEP`. -/
def nonDigitRegex : Regex := Regex.cls (fun c => !perlDigit c)

/-- The pattern `^\d{8}$` of `isValidCEP`. -/
def cepRegex : Regex :=
  Regex.seq Regex.beginText (Regex.seq (Regex.count (Regex.cls perlDigit) 8) Regex.endText)

/-- Go: `cleanCEP`. -/
def cleanCEP (cep : String) : String :=
  Regex.ReplaceAllString nonDigitRegex cep ""

/-- Go: `isValidCEP`. -/
def isValidCEP (cep : String) : Bool :=
  Regex.MatchString cepRegex (cleanCEP cep)

/-! ## The fragment of the `strings` and `fmt` packages used by the program -/

/-- Does `s` begin with `t`. -/
def startsWith : List Char → List Char → Bool
  | _, [] => true
  | [], _ :: _ => false
  | c :: s, d :: t => c == d && startsWith s t

/-- Is there an occurrence of `substr` in `s`. -/
def containsChars : List Char → List Char → Bool
  | [], substr => startsWith [] substr
  | c :: s, substr => startsWith (c :: s) substr || containsChars s substr

/-- Go: `strings.Contains`. -/
def stringsContains (s substr : String) : Bool := containsChars s.data substr.data

/-- Replace the occurrences of a non-empty `old`, left to right and without
overlap. -/
def replaceChars (old new : List Char) : Nat → List Char → List Char
  | 0, s => s
  | _ + 1, [] => []
  | fuel + 1, c :: s =>
    if startsWith (c :: s) old then new ++ replaceChars old new fuel ((c :: s).drop old.length)
    else c :: replaceChars old new fuel s

/-- Go: `strings.ReplaceAll`. An empty `old` matches before every code point
and at the end. -/
def stringsReplaceAll (s old new : String) : String :=
  if old.data.isEmpty then
    String.mk (new.data ++ (s.data.map (fun c => c :: new.data)).flatten)
  else String.mk (replaceChars old.data new.data s.data.length s.data)

/-- The verb `%d` applied to a status code. -/
def formatInt (n : Nat) : String := toString n

/-! ## Errors -/

/-- Go `error` values met by the program: an error with a plain text (made by
`fmt.Errorf` or handed back by a library) and the `*echo.HTTPError` made by
`echo.NewHTTPError`. -/
inductive GoError where
  | text (msg : String) : GoError
  | httpError (code : Nat) (message : String) : GoError
deriving DecidableEq

/-- The method `Error()`; for an `*echo.HTTPError` without internal error it is
`fmt.Sprintf("code=%d, message=%v", he.Code, he.Message)`. -/
def GoError.Error : GoError → String
  | GoError.text msg => msg
  | GoError.httpError code message => "code=" ++ formatInt code ++ ", message=" ++ message

def StatusOK : Nat := 200
def StatusBadRequest : Nat := 400
def StatusNotFound : Nat := 404
def StatusUnprocessableEntity : Nat := 422
def StatusInternalServerError : Nat := 500

/-! ## `float64` -/

/-- Values of Go's `float64`, the IEEE 754 binary64 format. The finite value
`fin neg m e` is `(-1)^neg * m * 2^e`; the values of the format are the zeros
`fin neg 0 (-1074)`, the subnormal numbers `fin neg m (-1074)` with
`m < 2^52`, and the normal numbers `fin neg m e` with `2^52 ≤ m < 2^53` and
`-1074 ≤ e ≤ 971`. All NaNs are one value. -/
inductive F64 where
  | nan : F64
  | inf (neg : Bool) : F64
  | fin (neg : Bool) (m : Nat) (e : Int) : F64
deriving DecidableEq

/-- The number of binary digits of `n`, `fuel` bounding their number. -/
def bitLengthAux : Nat → Nat → Nat
  | 0, _ => 0
  | fuel + 1, n => if n = 0 then 0 else bitLengthAux fuel (n / 2) + 1

/-- The number of binary digits of `n`. -/
def bitLength (n : Nat) : Nat := bitLengthAux n n

/-- A result with 53 bits at most and exponent `e ≥ -1074`: it overflows to an
infinity when the exponent is above the largest one of the format. -/
def F64.pack (neg : Bool) (m : Nat) (e : Int) : F64 :=
  if e > 971 then F64.inf neg else F64.fin neg m e

/-- Round the exact value `(-1)^neg * m * 2^e` to the format, to nearest and
ties to even (Go's only rounding mode). -/
def F64.round (neg : Bool) (m : Nat) (e : Int) : F64 :=
  if m = 0 then F64.fin neg 0 (-1074)
  else
    let e1 : Int := max (e + (bitLength m : Int) - 53) (-1074)
    if e1 ≤ e then F64.pack neg (m * 2 ^ (e - e1).toNat) e1
    else
      let sh : Nat := (e1 - e).toNat
      let q : Nat := m / 2 ^ sh
      let r : Nat := m % 2 ^ sh
      let half : Nat := 2 ^ (sh - 1)
      let q1 : Nat := if r > half ∨ (r = half ∧ q % 2 = 1) then q + 1 else q
      if q1 = 2 ^ 53 then F64.pack neg (2 ^ 52) (e1 + 1) else F64.pack neg q1 e1

/-- The integer `(-1)^neg * m`. -/
def signedInt (neg : Bool) (m : Nat) : Int := if neg then -(m : Int) else (m : Int)

/-- Go: `x + y` on `float64`. -/
def F64.add : F64 → F64 → F64
  | F64.nan, _ => F64.nan
  | _, F64.nan => F64.nan
  | F64.inf a, F64.inf b => if a = b then F64.inf a else F64.nan
  | F64.inf a, F64.fin _ _ _ => F64.inf a
  | F64.fin _ _ _, F64.inf b => F64.inf b
  | F64.fin s1 m1 e1, F64.fin s2 m2 e2 =>
    let e : Int := min e1 e2
    let v : Int := signedInt s1 (m1 * 2 ^ (e1 - e).toNat) + signedInt s2 (m2 * 2 ^ (e2 - e).toNat)
    if v = 0 then F64.fin (s1 && s2) 0 (-1074)
    else F64.round (decide (v < 0)) v.natAbs e

/-- Go: `x * y` on `float64`. -/
def F64.mul : F64 → F64 → F64
  | F64.nan, _ => F64.nan
  | _, F64.nan => F64.nan
  | F64.inf a, F64.inf b => F64.inf (xor a b)
  | F64.inf a, F64.fin s m _ => if m = 0 then F64.nan else F64.inf (xor a s)
  | F64.fin s m _, F64.inf b => if m = 0 then F64.nan else F64.inf (xor s b)
  | F64.fin s1 m1 e1, F64.fin s2 m2 e2 => F64.round (xor s1 s2) (m1 * m2) (e1 + e2)

/-- Go: `x*y + z` evaluated as one fused operation, rounded once. -/
def F64.fma : F64 → F64 → F64 → F64
  | F64.fin s1 m1 e1, F64.fin s2 m2 e2, z => F64.add (F64.fin (xor s1 s2) (m1 * m2) (e1 + e2)) z
  | x, y, z => F64.add (F64.mul x y) z

/-- Conversion of an integer constant to `float64`. -/
def F64.ofInt (n : Int) : F64 := F64.round (decide (n < 0)) n.natAbs 0

/-- Conversion of the constant `p / q` (`q > 0`) to `float64`: the quotient is
cut after at least 64 bits, a sticky bit records whether something was cut off,
and the result is rounded to the format. -/
def F64.ofQuotient (p q : Nat) : F64 :=
  let k : Nat := 64 + bitLength q
  let n : Nat := p * 2 ^ k / q
  let sticky : Nat := if p * 2 ^ k % q = 0 then 0 else 1
  F64.round false (2 * n + sticky) (-(k : Int) - 1)

/-! ## Temperature conversion -/

/-- Go: `celsiusToFahrenheit`. -/
def celsiusToFahrenheit (celsius : F64) : F64 :=
  F64.add (F64.mul celsius (F64.ofQuotient 18 10)) (F64.ofInt 32)

/-- The body of `celsiusToFahrenheit` when the compiler fuses the product and
the sum, as the Go specification allows it to. -/
def celsiusToFahrenheitFused (celsius : F64) : F64 :=
  F64.fma celsius (F64.ofQuotient 18 10) (F64.ofInt 32)

/-- Go: `celsiusToKelvin`. -/
def celsiusToKelvin (celsius : F64) : F64 :=
  F64.add celsius (F64.ofInt 273)

/-! ## Data model -/

/-- Go: `ViaCEPResponse`. -/
structure ViaCEPResponse where
  Cep : String
  Logradouro : String
  Complemento : String
  Bairro : String
  Localidade : String
  Uf : String
  Ibge : String
  Gia : String
  Ddd : String
  Siafi : String
  Erro : Bool
deriving DecidableEq

/-- The field `Location` of `WeatherAPIResponse`. -/
structure WeatherLocation where
  Name : String
  Region : String
  Country : String
deriving DecidableEq

/-- The field `Current` of `WeatherAPIResponse`. -/
structure WeatherCurrent where
  TempC : F64
  TempF : F64
deriving DecidableEq

/-- Go: `WeatherAPIResponse`. -/
structure WeatherAPIResponse where
  Location : WeatherLocation
  Current : WeatherCurrent
deriving DecidableEq

/-- Go: `TemperatureResponse`. -/
structure TemperatureResponse where
  TempC : F64
  TempF : F64
  TempK : F64
deriving DecidableEq

/-- Go: `ErrorResponse`. -/
structure ErrorResponse where
  Message : String
deriving DecidableEq

def viaCEPBaseURL : String := "https://viacep.com.br/ws/%s/json/"
def weatherAPIBaseURL : String := "http://api.weatherapi.com/v1/current.json"
def weatherAPIKey : String := "cole_sua_chave_aqui"

/-! ## The outside world -/

/-- What `client.Get` hands back when it has no error: the status code and what
`io.ReadAll(resp.Body)` will give. -/
structure HTTPResponse where
  StatusCode : Nat
  Body : Except GoError String

/-- The behaviour of what the program calls and cannot compute by itself: the
HTTP client (a timeout is one of its errors) and `json.Unmarshal` at the two
types it is used at. -/
structure Upstream where
  Get : String → Except GoError HTTPResponse
  unmarshalViaCEP : String → Except GoError ViaCEPResponse
  unmarshalWeather : String → Except GoError WeatherAPIResponse

/-- The UTF-8 encoding of a code point. -/
def utf8Bytes (c : Char) : List Nat :=
  let n := c.toNat
  if n < 0x80 then [n]
  else if n < 0x800 then [0xC0 + n / 64, 0x80 + n % 64]
  else if n < 0x10000 then [0xE0 + n / 4096, 0x80 + n / 64 % 64, 0x80 + n % 64]
  else [0xF0 + n / 262144, 0x80 + n / 4096 % 64, 0x80 + n / 64 % 64, 0x80 + n % 64]

/-- The bytes `url.QueryEscape` leaves alone: ASCII letters and digits and
`-`, `_`, `.`, `~`. -/
def queryUnreserved (b : Nat) : Bool :=
  (97 ≤ b && b ≤ 122) || (65 ≤ b && b ≤ 90) || (48 ≤ b && b ≤ 57) ||
    b == 45 || b == 95 || b == 46 || b == 126

/-- An upper case hexadecimal digit. -/
def upperHex (n : Nat) : Char := "0123456789ABCDEF".data.getD n '0'

/-- One byte as `url.QueryEscape` writes it. -/
def queryEscapeByte (b : Nat) : List Char :=
  if b = 32 then ['+']
  else if queryUnreserved b then [Char.ofNat b]
  else ['%', upperHex (b / 16), upperHex (b % 16)]

/-- Go: `url.QueryEscape`. -/
def QueryEscape (s : String) : String :=
  String.mk ((s.data.map (fun c => ((utf8Bytes c).map queryEscapeByte).flatten)).flatten)

/-! ## The two resolvers -/

/-- Go: `getLocationByCEP`. -/
def getLocationByCEP (up : Upstream) (cep : String) : Except GoError String :=
  let url := stringsReplaceAll viaCEPBaseURL "%s" cep
  match up.Get url with
  | Except.error err =>
    Except.error (GoError.text ("erro ao fazer requisição para ViaCEP: " ++ err.Error))
  | Except.ok resp =>
    if resp.StatusCode ≠ StatusOK then
      Except.error (GoError.text ("ViaCEP retornou status " ++ formatInt resp.StatusCode))
    else
      match resp.Body with
      | Except.error err =>
        Except.error (GoError.text ("erro ao ler resposta do ViaCEP: " ++ err.Error))
      | Except.ok bodyBytes =>
        match up.unmarshalViaCEP bodyBytes with
        | Except.error err =>
          Except.error (GoError.text
            ("erro ao decodificar JSON do ViaCEP: " ++ err.Error ++ " (body: " ++ bodyBytes ++ ")"))
        | Except.ok viaCEPResp =>
          if viaCEPResp.Erro then Except.error (GoError.httpError StatusNotFound "not found")
          else if viaCEPResp.Localidade = "" then
            Except.error (GoError.text ("localidade não encontrada para o CEP " ++ cep))
          else Except.ok viaCEPResp.Localidade

/-- Go: `getTemperatureByLocation`. -/
def getTemperatureByLocation (up : Upstream) (location : String) :
    Except GoError TemperatureResponse :=
  let encodedLocation := QueryEscape location
  let url := weatherAPIBaseURL ++ "?key=" ++ weatherAPIKey ++ "&q=" ++ encodedLocation ++ "&aqi=no"
  match up.Get url with
  | Except.error err =>
    Except.error (GoError.text ("erro ao fazer requisição para WeatherAPI: " ++ err.Error))
  | Except.ok resp =>
    match resp.Body with
    | Except.error err =>
      Except.error (GoError.text ("erro ao ler o corpo da resposta da WeatherAPI: " ++ err.Error))
    | Except.ok bodyBytes =>
      if resp.StatusCode ≠ StatusOK then
        Except.error (GoError.text
          ("WeatherAPI retornou status " ++ formatInt resp.StatusCode ++ ": " ++ bodyBytes))
      else
        match up.unmarshalWeather bodyBytes with
        | Except.error err =>
          Except.error (GoError.text
            ("erro ao decodificar JSON da WeatherAPI: " ++ err.Error ++ " (JSON original: "
              ++ bodyBytes ++ ")"))
        | Except.ok weatherResp =>
          let tempC := weatherResp.Current.TempC
          let tempF := celsiusToFahrenheit tempC
          let tempK := celsiusToKelvin tempC
          Except.ok (TemperatureResponse.mk tempC tempF tempK)

/-! ## The request handler -/

/-- What `c.JSON` is given as its second argument. -/
inductive Payload where
  | error (e : ErrorResponse) : Payload
  | temperature (t : TemperatureResponse) : Payload
deriving DecidableEq

/-- The response written by `c.JSON(status, payload)`. -/
structure Reply where
  status : Nat
  payload : Payload
deriving DecidableEq

/-- What the handler does besides answering, in the order it does it. -/
inductive Event where
  | printed (text : String) : Event
  | locationLookup (cep : String) : Event
  | weatherLookup (location : String) : Event
deriving DecidableEq

/-- Is the event a call of one of the two resolvers. -/
def Event.isLookup : Event → Bool
  | Event.printed _ => false
  | Event.locationLookup _ => true
  | Event.weatherLookup _ => true

/-- Is the event a call of the weather resolver. -/
def Event.isWeatherLookup : Event → Bool
  | Event.weatherLookup _ => true
  | _ => false

/-- Is the value a number: neither an infinity nor a NaN. -/
def F64.isFinite : F64 → Bool
  | F64.fin _ _ _ => true
  | _ => false

/-- The error of `encoding/json` on a `float64` it cannot write: JSON has no
infinity and no NaN, and the error quotes `strconv.FormatFloat(f, 'g', -1, 64)`. -/
def jsonFloatError : F64 → Option GoError
  | F64.nan => some (GoError.text "json: unsupported value: NaN")
  | F64.inf true => some (GoError.text "json: unsupported value: -Inf")
  | F64.inf false => some (GoError.text "json: unsupported value: +Inf")
  | F64.fin _ _ _ => none

/-- The error of `encoding/json` on a payload, if it has one: an `ErrorResponse`
always encodes, a `TemperatureResponse` fails at the first of its fields, in
their order, that is not finite. -/
def jsonMarshalError : Payload → Option GoError
  | Payload.error _ => none
  | Payload.temperature t =>
    match jsonFloatError t.TempC with
    | some err => some err
    | none =>
      match jsonFloatError t.TempF with
      | some err => some err
      | none => jsonFloatError t.TempK

/-- Echo: `c.JSON(code, i)`. The value is encoded as a whole before a byte of
it is written: on an encoding error nothing is written and the error is
returned, otherwise the response is written and the result is `nil`. -/
def cJSON (code : Nat) (i : Payload) : Except GoError Reply :=
  match jsonMarshalError i with
  | some err => Except.error err
  | none => Except.ok (Reply.mk code i)

/-- A run of the handler: what it did, and either the response it wrote
(returning `nil`) or the error it returned, having written nothing. -/
structure Run where
  events : List Event
  result : Except GoError Reply

/-- The calls of the resolvers made in a run. -/
def Run.lookups (r : Run) : List Event := r.events.filter Event.isLookup

/-- The response the client gets: the one the handler wrote or, when the
handler returned an error and wrote nothing, the one echo's default error
handler writes for an error that is not an `*echo.HTTPError`. -/
def Run.reply (r : Run) : Reply :=
  match r.result with
  | Except.ok reply => reply
  | Except.error _ =>
    Reply.mk StatusInternalServerError (Payload.error (ErrorResponse.mk "Internal Server Error"))

/-- Go: `handleWeatherRequest`, the two resolvers being parameters and `cep`
the value of `c.QueryParam("cep")`, empty when the parameter is missing. -/
def handleWeatherRequest (getLocation : String → Except GoError String)
    (getTemperature : String → Except GoError TemperatureResponse) (cep : String) : Run :=
  if cep = "" then
    Run.mk [] (cJSON StatusBadRequest (Payload.error (ErrorResponse.mk "CEP não fornecido")))
  else if !isValidCEP cep then
    Run.mk [] (cJSON StatusUnprocessableEntity (Payload.error (ErrorResponse.mk "invalid zipcode")))
  else
    let cep1 := cleanCEP cep
    let ev1 := [Event.printed ("Buscando localização para CEP: " ++ cep1 ++ "\n"),
      Event.locationLookup cep1]
    match getLocation cep1 with
    | Except.error err =>
      let ev2 := ev1 ++ [Event.printed ("Erro ao buscar localização: " ++ err.Error ++ "\n")]
      if stringsContains err.Error "not found" then
        Run.mk ev2 (cJSON StatusNotFound (Payload.error (ErrorResponse.mk "can not find zipcode")))
      else
        Run.mk ev2 (cJSON StatusInternalServerError
          (Payload.error (ErrorResponse.mk "Erro ao buscar localização")))
    | Except.ok location =>
      let ev2 := ev1 ++ [Event.printed ("Localização encontrada: " ++ location ++ "\n"),
        Event.weatherLookup location]
      match getTemperature location with
      | Except.error err =>
        Run.mk (ev2 ++ [Event.printed ("Erro ao buscar temperatura: " ++ err.Error ++ "\n")])
          (cJSON StatusInternalServerError
            (Payload.error (ErrorResponse.mk "Erro ao buscar temperatura")))
      | Except.ok temperature =>
        Run.mk (ev2 ++ [Event.printed "Temperatura obtida com sucesso\n"])
          (cJSON StatusOK (Payload.temperature temperature))

/-- The handler as `main` registers it: the resolvers are the program's own. -/
def weatherEndpoint (up : Upstream) (cep : String) : Run :=
  handleWeatherRequest (getLocationByCEP up) (getTemperatureByLocation up) cep

/-! ## Sample upstreams -/

/-- An upstream that plays a fixed script: `viaCEP` is what a request to the
postal code service gets and `weather` what any other request gets; bodies
decode to `decodedViaCEP` and `decodedWeather`. -/
def scriptedUpstream (viaCEP weather : Except GoError HTTPResponse)
    (decodedViaCEP : Except GoError ViaCEPResponse)
    (decodedWeather : Except GoError WeatherAPIResponse) : Upstream where
  Get := fun url => if stringsContains url "viacep.com.br" then viaCEP else weather
  unmarshalViaCEP := fun _ => decodedViaCEP
  unmarshalWeather := fun _ => decodedWeather

/-- A decoded answer of the postal code service for Avenida Paulista. -/
def paulista : ViaCEPResponse :=
  ViaCEPResponse.mk "01310-100" "Avenida Paulista" "" "Bela Vista" "São Paulo" "SP" "3550308"
    "1004" "11" "7107" false

/-- A decoded answer of the weather service: 25 degrees Celsius, with the
given Fahrenheit reading. -/
def saoPauloWeather (tempF : F64) : WeatherAPIResponse :=
  WeatherAPIResponse.mk (WeatherLocation.mk "Sao Paulo" "Sao Paulo" "Brazil")
    (WeatherCurrent.mk (F64.ofInt 25) tempF)

/-- A failed attempt to reach a server. -/
def unreachable : Except GoError HTTPResponse :=
  Except.error (GoError.text "dial tcp: i/o timeout")

/-- A `200 OK` answer with the given body. -/
def okBody (body : String) : Except GoError HTTPResponse :=
  Except.ok (HTTPResponse.mk StatusOK (Except.ok body))

/-- The postal code service answers `200 OK` with a page that is not JSON, and
`json.Unmarshal` rejects it. -/
def htmlUpstream : Upstream :=
  scriptedUpstream (okBody "<html><body>404 page not found</body></html>") unreachable
    (Except.error (GoError.text "invalid character '<' looking for beginning of value"))
    (Except.error (GoError.text "unexpected end of JSON input"))

/-- The decoded answer of the postal code service for a code it does not know:
only the error flag is set. -/
def unknownCode : ViaCEPResponse :=
  ViaCEPResponse.mk "" "" "" "" "" "" "" "" "" "" true

/-- A decoded answer of the postal code service with no error flag and no city. -/
def noCity : ViaCEPResponse :=
  ViaCEPResponse.mk "01310-100" "" "" "" "" "" "" "" "" "" false

/-- The postal code service does not know the code. -/
def unknownCodeUpstream : Upstream :=
  scriptedUpstream (okBody "\x7b\"erro\": true\x7d") unreachable (Except.ok unknownCode)
    (Except.error (GoError.text "unexpected end of JSON input"))

/-- The postal code service answers without a city. -/
def noCityUpstream : Upstream :=
  scriptedUpstream (okBody "\x7b\"cep\": \"01310-100\"\x7d") unreachable (Except.ok noCity)
    (Except.error (GoError.text "unexpected end of JSON input"))

/-- Both services answer; the weather service reports the Fahrenheit reading
`tempF` next to 25 degrees Celsius. -/
def fairUpstream (tempF : F64) : Upstream :=
  scriptedUpstream (okBody "\x7b\"localidade\": \"São Paulo\"\x7d")
    (okBody "\x7b\"current\": \x7b\"temp_c\": 25\x7d\x7d") (Except.ok paulista)
    (Except.ok (saoPauloWeather tempF))

/-- A decoded answer of the weather service whose `temp_c` is the `float64` of
`1e308`. -/
def scorchingWeather : WeatherAPIResponse :=
  WeatherAPIResponse.mk (WeatherLocation.mk "Sao Paulo" "Sao Paulo" "Brazil")
    (WeatherCurrent.mk (F64.fin false 5010420900022432 971) (F64.ofInt 0))

/-- Both services answer; the weather service reports `1e308` degrees Celsius. -/
def scorchingUpstream : Upstream :=
  scriptedUpstream (okBody "\x7b\"localidade\": \"São Paulo\"\x7d")
    (okBody "\x7b\"current\": \x7b\"temp_c\": 1e308\x7d\x7d") (Except.ok paulista)
    (Except.ok scorchingWeather)

/-! ## Lemmas on the regular expressions -/

theorem run_nonDigit_cons (i : Nat) (c : Char) (rest : List Char) :
    Regex.run nonDigitRegex i (c :: rest) = if perlDigit c then none else some (i + 1, rest) := by
  cases h : perlDigit c <;> simp [nonDigitRegex, Regex.run, h]

theorem run_nonDigit_nil (i : Nat) : Regex.run nonDigitRegex i [] = none := by
  simp [nonDigitRegex, Regex.run]

theorem find_nonDigit_digits (ds : List Char) (h : ∀ c ∈ ds, perlDigit c = true) (i : Nat) :
    Regex.find nonDigitRegex i ds = none := by
  induction ds generalizing i with
  | nil => simp [Regex.find, run_nonDigit_nil]
  | cons d ds ih =>
    have hd : perlDigit d = true := h d (List.mem_cons_self d ds)
    have hds : ∀ c ∈ ds, perlDigit c = true := fun c hc => h c (List.mem_cons_of_mem d hc)
    simp [Regex.find, run_nonDigit_cons, hd, ih hds]

theorem find_nonDigit_split (ds : List Char) (h : ∀ c ∈ ds, perlDigit c = true) (c : Char)
    (hc : perlDigit c = false) (rest : List Char) (i : Nat) :
    Regex.find nonDigitRegex i (ds ++ c :: rest) = some (i + ds.length, i + ds.length + 1) := by
  induction ds generalizing i with
  | nil => simp [Regex.find, run_nonDigit_cons, hc]
  | cons d ds ih =>
    have hd : perlDigit d = true := h d (List.mem_cons_self d ds)
    have hds : ∀ c ∈ ds, perlDigit c = true := fun c hc => h c (List.mem_cons_of_mem d hc)
    simp [Regex.find, run_nonDigit_cons, hd, ih hds]
    omega

theorem digits_or_split (l : List Char) :
    (∀ c ∈ l, perlDigit c = true) ∨
      ∃ ds c rest, l = ds ++ c :: rest ∧ (∀ d ∈ ds, perlDigit d = true) ∧ perlDigit c = false := by
  induction l with
  | nil => left; simp
  | cons a l ih =>
    cases ha : perlDigit a with
    | false => right; exact ⟨[], a, l, rfl, by simp, ha⟩
    | true =>
      rcases ih with h | ⟨ds, c, rest, hl, hds, hc⟩
      · left
        intro c hc
        rcases List.mem_cons.1 hc with rfl | hc
        · exact ha
        · exact h c hc
      · right
        refine ⟨a :: ds, c, rest, by simp [hl], ?_, hc⟩
        intro d hd
        rcases List.mem_cons.1 hd with rfl | hd
        · exact ha
        · exact hds d hd

theorem filter_digits_self (ds : List Char) (h : ∀ c ∈ ds, perlDigit c = true) :
    ds.filter perlDigit = ds :=
  List.filter_eq_self.2 h

theorem replaceAllLoop_nonDigit (fuel : Nat) :
    ∀ (pre rest buf : List Char), rest.length < fuel →
      replaceAllLoop nonDigitRegex (pre ++ rest) [] fuel pre.length pre.length buf
        = buf ++ rest.filter perlDigit := by
  induction fuel with
  | zero => intro pre rest buf h; omega
  | succ fuel ih =>
    intro pre rest buf hlen
    rcases digits_or_split rest with hall | ⟨ds, c, rest1, hrest, hds, hc⟩
    · simp [replaceAllLoop, find_nonDigit_digits rest hall, filter_digits_self rest hall]
    · subst hrest
      have hfind := find_nonDigit_split ds hds c hc rest1 pre.length
      have hsrc : pre ++ (ds ++ c :: rest1) = (pre ++ ds ++ [c]) ++ rest1 := by simp
      have hlen1 : rest1.length < fuel := by
        simp at hlen
        omega
      have hpos : (pre ++ ds ++ [c]).length = pre.length + ds.length + 1 := by
        simp
        omega
      have hrec := ih (pre ++ ds ++ [c]) rest1 (buf ++ ds) hlen1
      rw [hpos, ← hsrc] at hrec
      simp [replaceAllLoop, hfind, hc, List.filter_append, filter_digits_self ds hds]
      simpa using hrec

theorem cleanCEP_data (s : String) : (cleanCEP s).data = s.data.filter perlDigit := by
  have h := replaceAllLoop_nonDigit (s.data.length + 1) [] s.data [] (Nat.lt_succ_self _)
  simpa [cleanCEP, Regex.ReplaceAllString] using h

theorem cleanCEP_digits (s : String) : ∀ c ∈ (cleanCEP s).data, perlDigit c = true := by
  intro c hc
  rw [cleanCEP_data] at hc
  exact (List.mem_filter.1 hc).2

theorem run_count_digits (n : Nat) :
    ∀ (i : Nat) (l : List Char), (∀ c ∈ l, perlDigit c = true) →
      Regex.run (Regex.count (Regex.cls perlDigit) n) i l
        = if n ≤ l.length then some (i + n, l.drop n) else none := by
  induction n with
  | zero => intro i l _; simp [Regex.count, Regex.run]
  | succ n ih =>
    intro i l hl
    cases l with
    | nil => simp [Regex.count, Regex.run]
    | cons c l =>
      have hc : perlDigit c = true := hl c (List.mem_cons_self c l)
      have hl1 : ∀ d ∈ l, perlDigit d = true := fun d hd => hl d (List.mem_cons_of_mem c hd)
      simp only [Regex.count, Regex.run, hc, if_true, ih (i + 1) l hl1]
      by_cases h : n ≤ l.length
      · simp [h]
        omega
      · simp [h]

theorem run_seq (a b : Regex) (i : Nat) (l : List Char) :
    Regex.run (Regex.seq a b) i l =
      match Regex.run a i l with
      | none => none
      | some (j, rest1) => Regex.run b j rest1 := by
  rw [Regex.run]

theorem run_beginText (i : Nat) (l : List Char) :
    Regex.run Regex.beginText i l = if i = 0 then some (i, l) else none := by
  rw [Regex.run]

theorem run_endText (i : Nat) (l : List Char) :
    Regex.run Regex.endText i l = if l.isEmpty then some (i, l) else none := by
  rw [Regex.run]

theorem run_cepRegex_later (i : Nat) (l : List Char) (hi : i ≠ 0) :
    Regex.run cepRegex i l = none := by
  rw [cepRegex, run_seq, run_beginText]
  simp [hi]

theorem run_cepRegex_digits (i : Nat) (l : List Char) (hl : ∀ c ∈ l, perlDigit c = true) :
    (Regex.run cepRegex i l).isSome = decide (i = 0 ∧ l.length = 8) := by
  by_cases hi : i = 0
  · subst hi
    rw [cepRegex, run_seq, run_beginText]
    simp only [if_true]
    rw [run_seq, run_count_digits 8 0 l hl]
    by_cases h8 : 8 ≤ l.length
    · simp only [h8, if_true, run_endText]
      by_cases hd : l.drop 8 = []
      · have : l.length = 8 := by
          have := List.drop_eq_nil_iff.1 hd
          omega
        simp [hd, this]
      · have : l.length ≠ 8 := by
          intro h
          exact hd (List.drop_eq_nil_iff.2 (by omega))
        simp [hd, this]
    · have : l.length ≠ 8 := by omega
      simp [h8, this]
  · simp [run_cepRegex_later i l hi, hi]

theorem find_cepRegex_later (l : List Char) (i : Nat) (hi : i ≠ 0) :
    Regex.find cepRegex i l = none := by
  induction l generalizing i with
  | nil => rw [Regex.find, run_cepRegex_later i [] hi]
  | cons c l ih =>
    rw [Regex.find, run_cepRegex_later i (c :: l) hi]
    exact ih (i + 1) (Nat.succ_ne_zero i)

theorem find_cepRegex_digits (l : List Char) (hl : ∀ c ∈ l, perlDigit c = true) :
    (Regex.find cepRegex 0 l).isSome = decide (l.length = 8) := by
  have hrun := run_cepRegex_digits 0 l hl
  cases l with
  | nil =>
    simp only [Regex.find]
    cases h : Regex.run cepRegex 0 [] with
    | none => simp
    | some p => rw [h] at hrun; simp at hrun
  | cons c l =>
    simp only [Regex.find]
    cases h : Regex.run cepRegex 0 (c :: l) with
    | none =>
      rw [h] at hrun
      simp only [find_cepRegex_later l 1 (by decide)]
      simpa using hrun
    | some p =>
      rw [h] at hrun
      simpa using hrun

theorem isValidCEP_iff (s : String) : isValidCEP s = true ↔ (cleanCEP s).length = 8 := by
  have h := find_cepRegex_digits (cleanCEP s).data (cleanCEP_digits s)
  simp only [isValidCEP, Regex.MatchString, h, String.length]
  simp

/-! ## Lemmas on substring search -/

theorem startsWith_iff (s t : List Char) : startsWith s t = true ↔ ∃ r, s = t ++ r := by
  induction t generalizing s with
  | nil => cases s <;> simp [startsWith]
  | cons d t ih =>
    cases s with
    | nil => simp [startsWith]
    | cons c s =>
      simp only [startsWith, Bool.and_eq_true, beq_iff_eq, ih s, List.cons_append, List.cons.injEq]
      constructor
      · rintro ⟨hcd, r, hr⟩
        exact ⟨r, hcd, hr⟩
      · rintro ⟨r, hcd, hr⟩
        exact ⟨hcd, r, hr⟩

theorem containsChars_iff (s t : List Char) :
    containsChars s t = true ↔ ∃ a b, s = a ++ t ++ b := by
  induction s with
  | nil =>
    simp only [containsChars, startsWith_iff]
    constructor
    · rintro ⟨r, hr⟩
      exact ⟨[], r, by simpa using hr⟩
    · rintro ⟨a, b, h⟩
      have h1 : a ++ t ++ b = [] := h.symm
      simp only [List.append_eq_nil] at h1
      exact ⟨[], by simp [h1.1.2]⟩
  | cons c s ih =>
    simp only [containsChars, Bool.or_eq_true, startsWith_iff, ih]
    constructor
    · rintro (⟨r, hr⟩ | ⟨a, b, h⟩)
      · exact ⟨[], r, by simpa using hr⟩
      · exact ⟨c :: a, b, by simp [h]⟩
    · rintro ⟨a, b, h⟩
      cases a with
      | nil => left; exact ⟨b, by simpa using h⟩
      | cons x a =>
        right
        simp only [List.cons_append, List.cons.injEq] at h
        exact ⟨a, b, h.2⟩

theorem containsChars_tail_free (pre ds init : List Char) (x : Char) (hx : x ∉ ds)
    (hpre : containsChars pre (init ++ [x]) = false) :
    containsChars (pre ++ ds) (init ++ [x]) = false := by
  rw [Bool.eq_false_iff]
  intro hcon
  rw [containsChars_iff] at hcon
  obtain ⟨a, b, h⟩ := hcon
  rcases List.append_eq_append_iff.1 h with ⟨m, hm, hds⟩ | ⟨m, hm, _⟩
  · -- the occurrence ends at the end of `pre` or inside `ds`
    cases m with
    | nil =>
      have : containsChars pre (init ++ [x]) = true :=
        (containsChars_iff pre (init ++ [x])).2 ⟨a, [], by simpa using hm.symm⟩
      rw [hpre] at this
      exact Bool.noConfusion this
    | cons y m1 =>
      have h4 : x ∈ y :: m1 := by
        rw [← List.append_assoc] at hm
        rcases List.append_eq_append_iff.1 hm with ⟨k, _, hk⟩ | ⟨k, _, hk⟩
        · cases k with
          | nil =>
            simp only [List.nil_append, List.cons.injEq] at hk
            rw [hk.1]
            exact List.mem_cons_self y m1
          | cons z k1 => simp at hk
        · rw [hk]
          exact List.mem_append_right k (List.mem_singleton_self x)
      apply hx
      rw [hds]
      exact List.mem_append_left b h4
  · -- the occurrence ends inside `pre`
    have : containsChars pre (init ++ [x]) = true :=
      (containsChars_iff pre (init ++ [x])).2 ⟨a, m, hm⟩
    rw [hpre] at this
    exact Bool.noConfusion this

theorem not_found_after_digits (msg cep : String)
    (hmsg : stringsContains msg "not found" = false)
    (hcep : ∀ c ∈ cep.data, perlDigit c = true) :
    stringsContains (msg ++ cep) "not found" = false := by
  have hx : 'd' ∉ cep.data := by
    intro h
    have := hcep 'd' h
    revert this
    decide
  have h := containsChars_tail_free msg.data cep.data "not foun".data 'd' hx hmsg
  simpa [stringsContains] using h

/-! ## Checks of the library models -/

theorem library_model_checks :
    QueryEscape "São Paulo" = "S%C3%A3o+Paulo" ∧
      QueryEscape "a&b=c/d~e" = "a%26b%3Dc%2Fd~e" ∧
      stringsReplaceAll viaCEPBaseURL "%s" "01310100" = "https://viacep.com.br/ws/01310100/json/" ∧
      stringsContains "code=404, message=not found" "not found" = true ∧
      stringsContains "ViaCEP retornou status 500" "not found" = false ∧
      (GoError.httpError StatusNotFound "not found").Error = "code=404, message=not found" ∧
      cleanCEP "01310-100" = "01310100" ∧ cleanCEP " 1a2b3\n" = "123" := by
  decide

theorem float64_model_checks :
    F64.ofQuotient 18 10 = F64.fin false 0x1ccccccccccccd (-52) ∧
      F64.ofQuotient 1 10 = F64.fin false 0x1999999999999a (-56) ∧
      F64.add (F64.ofQuotient 1 10) (F64.ofQuotient 2 10) = F64.fin false 0x13333333333334 (-54) ∧
      F64.mul (F64.ofQuotient 1 10) (F64.ofInt 3) = F64.fin false 0x13333333333334 (-54) ∧
      F64.mul (F64.fin false (2 ^ 53 - 1) 971) (F64.ofInt 2) = F64.inf false ∧
      F64.add (F64.ofInt (2 ^ 53)) (F64.ofInt 1) = F64.ofInt (2 ^ 53) ∧
      F64.add (F64.ofInt (2 ^ 53 + 2)) (F64.ofInt 1) = F64.ofInt (2 ^ 53 + 4) ∧
      F64.ofInt (10 ^ 308) = F64.fin false 5010420900022432 971 := by
  refine ⟨?_, ?_, ?_, ?_, ?_, ?_, ?_, ?_⟩ <;> decide!

/-! ## Postal code validation and normalisation -/

theorem digit_utf8Size (c : Char) (h : perlDigit c = true) : c.utf8Size = 1 := by
  simp only [perlDigit, Bool.and_eq_true, decide_eq_true_eq] at h
  have h2 : c.val ≤ 57 := h.2
  have h3 : c.val.toNat ≤ 57 := h2
  have h4 : c.val ≤ 127 := by
    show c.val.toNat ≤ 127
    omega
  have h5 : c.val ≤ UInt32.ofNatCore 127 (by decide) := h4
  unfold Char.utf8Size
  exact if_pos h5

theorem digits_utf8Len (l : List Char) (h : ∀ c ∈ l, perlDigit c = true) :
    String.utf8Len l = l.length := by
  induction l with
  | nil => rfl
  | cons c l ih =>
    have hc := digit_utf8Size c (h c (List.mem_cons_self c l))
    have hl := ih (fun d hd => h d (List.mem_cons_of_mem c hd))
    rw [String.utf8Len_cons, hc, hl, List.length_cons]

/-- Claim C1: `isValidCEP s` holds exactly when `cleanCEP s` has length 8, in
code points and in bytes, which is when `s` has exactly eight characters in
`0`..`9`; the six examples of the test suite come out as stated. -/
theorem isValidCEP_iff_eight_digits :
    (∀ s : String, (isValidCEP s = true ↔ (cleanCEP s).length = 8) ∧
        (isValidCEP s = true ↔ (cleanCEP s).utf8ByteSize = 8) ∧
        (isValidCEP s = true ↔ s.data.countP perlDigit = 8)) ∧
      isValidCEP "01310-100" = true ∧ isValidCEP "01310100" = true ∧
      isValidCEP "123" = false ∧ isValidCEP "123456789" = false ∧
      isValidCEP "0131010A" = false ∧ isValidCEP "" = false := by
  refine ⟨fun s => ⟨isValidCEP_iff s, ?_, ?_⟩, by decide, by decide, by decide, by decide,
    by decide, by decide⟩
  · have hb : (cleanCEP s).utf8ByteSize = (cleanCEP s).length := by
      have := digits_utf8Len (cleanCEP s).data (cleanCEP_digits s)
      rw [String.length, ← this]
      rfl
    rw [hb]
    exact isValidCEP_iff s
  · have hc : (cleanCEP s).length = s.data.countP perlDigit := by
      simp [String.length, cleanCEP_data, List.countP_eq_length_filter]
    rw [← hc]
    exact isValidCEP_iff s

/-- Claim C2: `cleanCEP s` is `s` with the characters outside `0`..`9` deleted:
it is the list of the digits of `s` in their order, all its characters are
digits, it is a subsequence of `s`, and every digit occurs in it as often as
in `s`. -/
theorem cleanCEP_deletes_non_digits (s : String) :
    (cleanCEP s).data = s.data.filter (fun c => decide ('0' ≤ c ∧ c ≤ '9')) ∧
      (∀ c ∈ (cleanCEP s).data, '0' ≤ c ∧ c ≤ '9') ∧
      List.Sublist (cleanCEP s).data s.data ∧
      (∀ c : Char, '0' ≤ c ∧ c ≤ '9' → (cleanCEP s).data.count c = s.data.count c) := by
  have hp : (fun c => decide ('0' ≤ c ∧ c ≤ '9')) = perlDigit := by
    funext c
    simp [perlDigit]
  refine ⟨by rw [hp]; exact cleanCEP_data s, ?_, ?_, ?_⟩
  · intro c hc
    have := cleanCEP_digits s c hc
    simpa [perlDigit] using this
  · rw [cleanCEP_data]
    exact List.filter_sublist s.data
  · intro c hc
    have hd : perlDigit c = true := by simpa [perlDigit] using hc
    rw [cleanCEP_data, List.count_filter hd]

theorem getTemperatureByLocation_decoded (up : Upstream) (location : String)
    (resp : HTTPResponse) (body : String) (decoded : WeatherAPIResponse)
    (hget : up.Get (weatherAPIBaseURL ++ "?key=" ++ weatherAPIKey ++ "&q=" ++ QueryEscape location
      ++ "&aqi=no") = Except.ok resp)
    (hbody : resp.Body = Except.ok body) (hstatus : resp.StatusCode = StatusOK)
    (hdecoded : up.unmarshalWeather body = Except.ok decoded) :
    getTemperatureByLocation up location
      = Except.ok (TemperatureResponse.mk decoded.Current.TempC
          (celsiusToFahrenheit decoded.Current.TempC) (celsiusToKelvin decoded.Current.TempC)) := by
  unfold getTemperatureByLocation
  simp only [hget, hstatus, hbody, hdecoded, ne_eq, not_true_eq_false, if_false]

/-! ## The request handler -/

theorem ne_empty_of_valid (cep : String) (h : isValidCEP cep = true) : cep ≠ "" := by
  intro he
  rw [he] at h
  revert h
  decide

theorem cJSON_error (code : Nat) (e : ErrorResponse) :
    cJSON code (Payload.error e) = Except.ok (Reply.mk code (Payload.error e)) := rfl

theorem cJSON_temperature (code : Nat) (t : TemperatureResponse)
    (hC : t.TempC.isFinite = true) (hF : t.TempF.isFinite = true) (hK : t.TempK.isFinite = true) :
    cJSON code (Payload.temperature t) = Except.ok (Reply.mk code (Payload.temperature t)) := by
  obtain ⟨c, f, k⟩ := t
  cases c <;> cases f <;> cases k <;> simp_all [F64.isFinite]
  rfl

theorem cJSON_temperature_error (code : Nat) (t : TemperatureResponse)
    (h : (t.TempC.isFinite && t.TempF.isFinite && t.TempK.isFinite) = false) :
    ∃ err, cJSON code (Payload.temperature t) = Except.error err := by
  obtain ⟨c, f, k⟩ := t
  cases c with
  | nan => exact ⟨_, rfl⟩
  | inf a => cases a <;> exact ⟨_, rfl⟩
  | fin s m e =>
    cases f with
    | nan => exact ⟨_, rfl⟩
    | inf a => cases a <;> exact ⟨_, rfl⟩
    | fin s1 m1 e1 =>
      cases k with
      | nan => exact ⟨_, rfl⟩
      | inf a => cases a <;> exact ⟨_, rfl⟩
      | fin s2 m2 e2 => simp [F64.isFinite] at h

theorem handle_valid (getLocation : String → Except GoError String)
    (getTemperature : String → Except GoError TemperatureResponse) (cep : String)
    (hvalid : isValidCEP cep = true) :
    handleWeatherRequest getLocation getTemperature cep =
      match getLocation (cleanCEP cep) with
      | Except.error err =>
        if stringsContains err.Error "not found" then
          Run.mk [Event.printed ("Buscando localização para CEP: " ++ cleanCEP cep ++ "\n"),
              Event.locationLookup (cleanCEP cep),
              Event.printed ("Erro ao buscar localização: " ++ err.Error ++ "\n")]
            (Except.ok
              (Reply.mk StatusNotFound (Payload.error (ErrorResponse.mk "can not find zipcode"))))
        else
          Run.mk [Event.printed ("Buscando localização para CEP: " ++ cleanCEP cep ++ "\n"),
              Event.locationLookup (cleanCEP cep),
              Event.printed ("Erro ao buscar localização: " ++ err.Error ++ "\n")]
            (Except.ok (Reply.mk StatusInternalServerError
              (Payload.error (ErrorResponse.mk "Erro ao buscar localização"))))
      | Except.ok location =>
        match getTemperature location with
        | Except.error err =>
          Run.mk [Event.printed ("Buscando localização para CEP: " ++ cleanCEP cep ++ "\n"),
              Event.locationLookup (cleanCEP cep),
              Event.printed ("Localização encontrada: " ++ location ++ "\n"),
              Event.weatherLookup location,
              Event.printed ("Erro ao buscar temperatura: " ++ err.Error ++ "\n")]
            (Except.ok (Reply.mk StatusInternalServerError
              (Payload.error (ErrorResponse.mk "Erro ao buscar temperatura"))))
        | Except.ok temperature =>
          Run.mk [Event.printed ("Buscando localização para CEP: " ++ cleanCEP cep ++ "\n"),
              Event.locationLookup (cleanCEP cep),
              Event.printed ("Localização encontrada: " ++ location ++ "\n"),
              Event.weatherLookup location,
              Event.printed "Temperatura obtida com sucesso\n"]
            (cJSON StatusOK (Payload.temperature temperature)) := by
  have hne := ne_empty_of_valid cep hvalid
  unfold handleWeatherRequest
  rw [if_neg hne]
  simp only [hvalid, Bool.not_true, Bool.false_eq_true, if_false, cJSON_error]
  cases getLocation (cleanCEP cep) with
  | error err => by_cases h : stringsContains err.Error "not found" = true <;> simp [h]
  | ok location =>
    dsimp only
    cases getTemperature location <;> simp

/-- Claim C3, with the condition the code needs: for a `cep` that passes
`isValidCEP` the first call made is the location resolver on `cleanCEP cep`,
the normalised code of eight digits; when it gives a city and the weather
resolver gives for that city a `t` whose three temperatures are finite, the
calls are these two, the handler writes its response and returns no error, and
the response is 200 with `t`. -/
theorem handleWeatherRequest_success (getLocation : String → Except GoError String)
    (getTemperature : String → Except GoError TemperatureResponse) (cep : String)
    (hvalid : isValidCEP cep = true) :
    (handleWeatherRequest getLocation getTemperature cep).lookups.head?
        = some (Event.locationLookup (cleanCEP cep)) ∧
      ((cleanCEP cep).length = 8 ∧ ∀ c ∈ (cleanCEP cep).data, '0' ≤ c ∧ c ≤ '9') ∧
      ∀ (city : String) (t : TemperatureResponse),
        getLocation (cleanCEP cep) = Except.ok city → getTemperature city = Except.ok t →
          t.TempC.isFinite = true → t.TempF.isFinite = true → t.TempK.isFinite = true →
            (handleWeatherRequest getLocation getTemperature cep).lookups
                = [Event.locationLookup (cleanCEP cep), Event.weatherLookup city] ∧
              (handleWeatherRequest getLocation getTemperature cep).result
                = Except.ok (Reply.mk StatusOK (Payload.temperature t)) ∧
              (handleWeatherRequest getLocation getTemperature cep).reply
                = Reply.mk StatusOK (Payload.temperature t) := by
  rw [handle_valid getLocation getTemperature cep hvalid]
  refine ⟨?_, ⟨(isValidCEP_iff cep).1 hvalid, ?_⟩, ?_⟩
  · cases getLocation (cleanCEP cep) with
    | error err =>
      by_cases h : stringsContains err.Error "not found" = true <;>
        simp [h, Run.lookups, List.filter, Event.isLookup]
    | ok location =>
      dsimp only
      cases getTemperature location <;> simp [Run.lookups, List.filter, Event.isLookup]
  · intro c hc
    have := cleanCEP_digits cep c hc
    simpa [perlDigit] using this
  · intro city t hloc htemp hC hF hK
    rw [hloc]
    simp only [htemp, cJSON_temperature StatusOK t hC hF hK]
    simp [Run.lookups, Run.reply, List.filter, Event.isLookup]

theorem handleWeatherRequest_success_witness :
    isValidCEP "01310-100" = true ∧
      (handleWeatherRequest (fun _ => Except.ok "São Paulo")
          (fun _ => Except.ok (TemperatureResponse.mk (F64.ofInt 25) (F64.ofInt 77) (F64.ofInt 298)))
          "01310-100").lookups
        = [Event.locationLookup "01310100", Event.weatherLookup "São Paulo"] ∧
      (handleWeatherRequest (fun _ => Except.ok "São Paulo")
          (fun _ => Except.ok (TemperatureResponse.mk (F64.ofInt 25) (F64.ofInt 77) (F64.ofInt 298)))
          "01310-100").result
        = Except.ok (Reply.mk StatusOK
          (Payload.temperature (TemperatureResponse.mk (F64.ofInt 25) (F64.ofInt 77) (F64.ofInt 298)))) ∧
      (handleWeatherRequest (fun _ => Except.ok "São Paulo")
          (fun _ => Except.ok (TemperatureResponse.mk (F64.ofInt 25) (F64.ofInt 77) (F64.ofInt 298)))
          "01310-100").reply
        = Reply.mk StatusOK
          (Payload.temperature (TemperatureResponse.mk (F64.ofInt 25) (F64.ofInt 77) (F64.ofInt 298))) :=
  ⟨by decide,
    (handleWeatherRequest_success (fun _ => Except.ok "São Paulo")
      (fun _ => Except.ok (TemperatureResponse.mk (F64.ofInt 25) (F64.ofInt 77) (F64.ofInt 298)))
      "01310-100" (by decide)).2.2 "São Paulo"
      (TemperatureResponse.mk (F64.ofInt 25) (F64.ofInt 77) (F64.ofInt 298)) rfl rfl
      (by decide) (by decide) (by decide)⟩

/-- Claim C3, as the specification has it, fails: for the valid code
"01310100" the location resolver gives a city and the weather resolver gives,
for the reading `1e308` of the weather service, a `TemperatureResponse` whose
`TempF` is `+Inf`; `c.JSON` cannot encode it, the handler returns the error of
the encoder and writes nothing, and the client gets 500, not 200. -/
theorem overflowing_temperature_not_answered_200 :
    isValidCEP "01310100" = true ∧
      getLocationByCEP scorchingUpstream (cleanCEP "01310100") = Except.ok "São Paulo" ∧
      getTemperatureByLocation scorchingUpstream "São Paulo"
        = Except.ok (TemperatureResponse.mk (F64.fin false 5010420900022432 971) (F64.inf false)
            (F64.fin false 5010420900022432 971)) ∧
      (weatherEndpoint scorchingUpstream "01310100").result
        = Except.error (GoError.text "json: unsupported value: +Inf") ∧
      (weatherEndpoint scorchingUpstream "01310100").reply.status = 500 ∧
      (weatherEndpoint scorchingUpstream "01310100").reply
        ≠ Reply.mk StatusOK (Payload.temperature
            (TemperatureResponse.mk (F64.fin false 5010420900022432 971) (F64.inf false)
              (F64.fin false 5010420900022432 971))) := by
  have hloc : getLocationByCEP scorchingUpstream (cleanCEP "01310100") = Except.ok "São Paulo" :=
    rfl
  have hF : celsiusToFahrenheit (F64.fin false 5010420900022432 971) = F64.inf false := by decide!
  have hK : celsiusToKelvin (F64.fin false 5010420900022432 971)
      = F64.fin false 5010420900022432 971 := by decide!
  have htemp : getTemperatureByLocation scorchingUpstream "São Paulo"
      = Except.ok (TemperatureResponse.mk (F64.fin false 5010420900022432 971) (F64.inf false)
          (F64.fin false 5010420900022432 971)) := by
    have h := getTemperatureByLocation_decoded scorchingUpstream "São Paulo"
      (HTTPResponse.mk StatusOK (Except.ok "\x7b\"current\": \x7b\"temp_c\": 1e308\x7d\x7d"))
      "\x7b\"current\": \x7b\"temp_c\": 1e308\x7d\x7d" scorchingWeather rfl rfl rfl rfl
    have hc : scorchingWeather.Current.TempC = F64.fin false 5010420900022432 971 := rfl
    rw [hc, hF, hK] at h
    exact h
  have hrun : (weatherEndpoint scorchingUpstream "01310100").result
      = Except.error (GoError.text "json: unsupported value: +Inf") := by
    unfold weatherEndpoint
    rw [handle_valid _ _ "01310100" (by decide), hloc]
    simp only [htemp]
    rfl
  refine ⟨by decide, hloc, htemp, hrun, ?_, ?_⟩
  · simp only [Run.reply, hrun]
    rfl
  · simp only [Run.reply, hrun]
    decide

theorem nonfinite_temperature_not_written (getLocation : String → Except GoError String)
    (getTemperature : String → Except GoError TemperatureResponse) (cep city : String)
    (t : TemperatureResponse) (hvalid : isValidCEP cep = true)
    (hloc : getLocation (cleanCEP cep) = Except.ok city)
    (htemp : getTemperature city = Except.ok t)
    (h : (t.TempC.isFinite && t.TempF.isFinite && t.TempK.isFinite) = false) :
    (∃ err, (handleWeatherRequest getLocation getTemperature cep).result = Except.error err) ∧
      (handleWeatherRequest getLocation getTemperature cep).reply
        = Reply.mk 500 (Payload.error (ErrorResponse.mk "Internal Server Error")) := by
  obtain ⟨err, herr⟩ := cJSON_temperature_error StatusOK t h
  rw [handle_valid getLocation getTemperature cep hvalid, hloc]
  simp only [htemp, herr, Run.reply]
  exact ⟨⟨err, rfl⟩, rfl⟩

/-- Claim C4, as the code has it: with an empty `cep` the handler answers 400
with the message "CEP não fornecido" and calls no resolver. -/
theorem handleWeatherRequest_missing (getLocation : String → Except GoError String)
    (getTemperature : String → Except GoError TemperatureResponse) :
    (handleWeatherRequest getLocation getTemperature "").reply
        = Reply.mk 400 (Payload.error (ErrorResponse.mk "CEP não fornecido")) ∧
      (handleWeatherRequest getLocation getTemperature "").lookups = [] := by
  constructor <;> rfl

/-- Claim C4, as the specification has it, fails: the message of the 400 answer
is not "postal code not provided". -/
theorem missing_cep_message_differs :
    (weatherEndpoint unknownCodeUpstream "").reply.status = 400 ∧
      (weatherEndpoint unknownCodeUpstream "").reply.payload
        = Payload.error (ErrorResponse.mk "CEP não fornecido") ∧
      (weatherEndpoint unknownCodeUpstream "").reply.payload
        ≠ Payload.error (ErrorResponse.mk "postal code not provided") := by
  refine ⟨rfl, rfl, ?_⟩
  decide

/-- Claim C5: a non-empty `cep` that fails `isValidCEP` is answered 422 with the
message "invalid zipcode", and no resolver is called. -/
theorem handleWeatherRequest_invalid (getLocation : String → Except GoError String)
    (getTemperature : String → Except GoError TemperatureResponse) (cep : String)
    (hne : cep ≠ "") (hinvalid : isValidCEP cep = false) :
    (handleWeatherRequest getLocation getTemperature cep).reply
        = Reply.mk 422 (Payload.error (ErrorResponse.mk "invalid zipcode")) ∧
      (handleWeatherRequest getLocation getTemperature cep).lookups = [] := by
  unfold handleWeatherRequest
  rw [if_neg hne]
  simp only [hinvalid, Bool.not_false, if_true]
  constructor <;> rfl

theorem handleWeatherRequest_invalid_witness :
    "123" ≠ "" ∧ isValidCEP "123" = false ∧
      (handleWeatherRequest (getLocationByCEP (fairUpstream (F64.ofInt 77)))
          (getTemperatureByLocation (fairUpstream (F64.ofInt 77))) "123").reply
        = Reply.mk 422 (Payload.error (ErrorResponse.mk "invalid zipcode")) ∧
      (handleWeatherRequest (getLocationByCEP (fairUpstream (F64.ofInt 77)))
          (getTemperatureByLocation (fairUpstream (F64.ofInt 77))) "123").lookups = [] :=
  ⟨by decide, by decide,
    handleWeatherRequest_invalid (getLocationByCEP (fairUpstream (F64.ofInt 77)))
      (getTemperatureByLocation (fairUpstream (F64.ofInt 77))) "123" (by decide) (by decide)⟩

/-! ## The location resolver -/

theorem getLocationByCEP_decoded (up : Upstream) (cep : String) (resp : HTTPResponse)
    (body : String) (decoded : ViaCEPResponse)
    (hget : up.Get (stringsReplaceAll viaCEPBaseURL "%s" cep) = Except.ok resp)
    (hstatus : resp.StatusCode = StatusOK) (hbody : resp.Body = Except.ok body)
    (hdecoded : up.unmarshalViaCEP body = Except.ok decoded) :
    getLocationByCEP up cep =
      if decoded.Erro then Except.error (GoError.httpError StatusNotFound "not found")
      else if decoded.Localidade = "" then
        Except.error (GoError.text ("localidade não encontrada para o CEP " ++ cep))
      else Except.ok decoded.Localidade := by
  unfold getLocationByCEP
  simp only [hget, hstatus, hbody, hdecoded, ne_eq, not_true_eq_false, if_false]

theorem not_found_error_matches :
    stringsContains (GoError.httpError StatusNotFound "not found").Error "not found" = true := by
  decide

/-- Claim C6: for a valid `cep`, when the decoded answer of the postal code
service has its `erro` flag set, `getLocationByCEP` fails with the error made by
`echo.NewHTTPError(http.StatusNotFound, "not found")`, and the handler answers
404 with the message "can not find zipcode" without calling the weather
resolver. -/
theorem erro_flag_answers_404 (up : Upstream) (cep : String) (resp : HTTPResponse)
    (body : String) (decoded : ViaCEPResponse)
    (hvalid : isValidCEP cep = true)
    (hget : up.Get (stringsReplaceAll viaCEPBaseURL "%s" (cleanCEP cep)) = Except.ok resp)
    (hstatus : resp.StatusCode = StatusOK) (hbody : resp.Body = Except.ok body)
    (hdecoded : up.unmarshalViaCEP body = Except.ok decoded)
    (herro : decoded.Erro = true) :
    getLocationByCEP up (cleanCEP cep)
        = Except.error (GoError.httpError StatusNotFound "not found") ∧
      (weatherEndpoint up cep).reply
        = Reply.mk 404 (Payload.error (ErrorResponse.mk "can not find zipcode")) ∧
      (weatherEndpoint up cep).lookups = [Event.locationLookup (cleanCEP cep)] ∧
      (weatherEndpoint up cep).events.filter Event.isWeatherLookup = [] := by
  have hloc : getLocationByCEP up (cleanCEP cep)
      = Except.error (GoError.httpError StatusNotFound "not found") := by
    rw [getLocationByCEP_decoded up (cleanCEP cep) resp body decoded hget hstatus hbody hdecoded]
    simp [herro]
  refine ⟨hloc, ?_⟩
  unfold weatherEndpoint
  rw [handle_valid _ _ cep hvalid, hloc]
  simp only [not_found_error_matches, if_true]
  refine ⟨rfl, ?_, ?_⟩ <;> simp [Run.lookups, List.filter, Event.isLookup, Event.isWeatherLookup]

theorem erro_flag_answers_404_witness :
    isValidCEP "99999-999" = true ∧
      getLocationByCEP unknownCodeUpstream (cleanCEP "99999-999")
        = Except.error (GoError.httpError StatusNotFound "not found") ∧
      (weatherEndpoint unknownCodeUpstream "99999-999").reply
        = Reply.mk 404 (Payload.error (ErrorResponse.mk "can not find zipcode")) ∧
      (weatherEndpoint unknownCodeUpstream "99999-999").lookups
        = [Event.locationLookup (cleanCEP "99999-999")] ∧
      (weatherEndpoint unknownCodeUpstream "99999-999").events.filter Event.isWeatherLookup = [] :=
  ⟨by decide,
    erro_flag_answers_404 unknownCodeUpstream "99999-999"
      (HTTPResponse.mk StatusOK (Except.ok "\x7b\"erro\": true\x7d")) "\x7b\"erro\": true\x7d"
      unknownCode (by decide) rfl rfl rfl rfl rfl⟩

theorem weather_failure_answers_500 (getLocation : String → Except GoError String)
    (getTemperature : String → Except GoError TemperatureResponse) (cep city : String)
    (err : GoError) (hvalid : isValidCEP cep = true)
    (hloc : getLocation (cleanCEP cep) = Except.ok city)
    (htemp : getTemperature city = Except.error err) :
    (handleWeatherRequest getLocation getTemperature cep).reply
      = Reply.mk 500 (Payload.error (ErrorResponse.mk "Erro ao buscar temperatura")) := by
  rw [handle_valid getLocation getTemperature cep hvalid, hloc]
  simp only [htemp]
  rfl

theorem location_failure_answer (getLocation : String → Except GoError String)
    (getTemperature : String → Except GoError TemperatureResponse) (cep : String)
    (err : GoError) (hvalid : isValidCEP cep = true)
    (hloc : getLocation (cleanCEP cep) = Except.error err) :
    (handleWeatherRequest getLocation getTemperature cep).reply
      = if stringsContains err.Error "not found" then
          Reply.mk 404 (Payload.error (ErrorResponse.mk "can not find zipcode"))
        else Reply.mk 500 (Payload.error (ErrorResponse.mk "Erro ao buscar localização")) := by
  rw [handle_valid getLocation getTemperature cep hvalid, hloc]
  by_cases h : stringsContains err.Error "not found" = true
  · simp only [h, if_true]
    rfl
  · simp only [h, if_false]
    rfl

/-- Claim C7 fails at a decoding failure whose body has the words "not found" in
it: the error of `getLocationByCEP` quotes the body, the handler finds "not
found" in the text of the error and answers 404 where the claim has 500. -/
theorem decode_failure_answers_404 :
    isValidCEP "01310100" = true ∧
      getLocationByCEP htmlUpstream (cleanCEP "01310100")
        = Except.error (GoError.text
          ("erro ao decodificar JSON do ViaCEP: "
            ++ "invalid character '<' looking for beginning of value"
            ++ " (body: <html><body>404 page not found</body></html>)")) ∧
      (weatherEndpoint htmlUpstream "01310100").reply
        = Reply.mk 404 (Payload.error (ErrorResponse.mk "can not find zipcode")) ∧
      (weatherEndpoint htmlUpstream "01310100").reply.status ≠ 500 := by
  refine ⟨by decide, rfl, by decide, by decide⟩

/-- Claim C8: for a valid `cep`, when the decoded answer of the postal code
service has no `erro` flag and an empty `localidade`, `getLocationByCEP` fails
with an error whose text, which ends in the normalised code, has no "not found"
in it, and the handler answers 500, not 404. -/
theorem empty_city_answers_500 (up : Upstream) (cep : String) (resp : HTTPResponse)
    (body : String) (decoded : ViaCEPResponse)
    (hvalid : isValidCEP cep = true)
    (hget : up.Get (stringsReplaceAll viaCEPBaseURL "%s" (cleanCEP cep)) = Except.ok resp)
    (hstatus : resp.StatusCode = StatusOK) (hbody : resp.Body = Except.ok body)
    (hdecoded : up.unmarshalViaCEP body = Except.ok decoded)
    (herro : decoded.Erro = false) (hcity : decoded.Localidade = "") :
    getLocationByCEP up (cleanCEP cep)
        = Except.error (GoError.text ("localidade não encontrada para o CEP " ++ cleanCEP cep)) ∧
      stringsContains ("localidade não encontrada para o CEP " ++ cleanCEP cep) "not found" = false ∧
      (weatherEndpoint up cep).reply
        = Reply.mk 500 (Payload.error (ErrorResponse.mk "Erro ao buscar localização")) ∧
      (weatherEndpoint up cep).reply.status ≠ 404 := by
  have hloc : getLocationByCEP up (cleanCEP cep)
      = Except.error (GoError.text ("localidade não encontrada para o CEP " ++ cleanCEP cep)) := by
    rw [getLocationByCEP_decoded up (cleanCEP cep) resp body decoded hget hstatus hbody hdecoded]
    simp [herro, hcity]
  have hfree : stringsContains ("localidade não encontrada para o CEP " ++ cleanCEP cep)
      "not found" = false :=
    not_found_after_digits "localidade não encontrada para o CEP " (cleanCEP cep) (by decide)
      (cleanCEP_digits cep)
  have hreply : (weatherEndpoint up cep).reply
      = Reply.mk 500 (Payload.error (ErrorResponse.mk "Erro ao buscar localização")) := by
    unfold weatherEndpoint
    rw [handle_valid _ _ cep hvalid, hloc]
    simp only [GoError.Error, hfree, Bool.false_eq_true, if_false]
    rfl
  refine ⟨hloc, hfree, hreply, ?_⟩
  rw [hreply]
  decide

theorem empty_city_answers_500_witness :
    isValidCEP "01310-100" = true ∧
      getLocationByCEP noCityUpstream (cleanCEP "01310-100")
        = Except.error
          (GoError.text ("localidade não encontrada para o CEP " ++ cleanCEP "01310-100")) ∧
      stringsContains ("localidade não encontrada para o CEP " ++ cleanCEP "01310-100")
        "not found" = false ∧
      (weatherEndpoint noCityUpstream "01310-100").reply
        = Reply.mk 500 (Payload.error (ErrorResponse.mk "Erro ao buscar localização")) ∧
      (weatherEndpoint noCityUpstream "01310-100").reply.status ≠ 404 :=
  ⟨by decide,
    empty_city_answers_500 noCityUpstream "01310-100"
      (HTTPResponse.mk StatusOK (Except.ok "\x7b\"cep\": \"01310-100\"\x7d"))
      "\x7b\"cep\": \"01310-100\"\x7d" noCity (by decide) rfl rfl rfl rfl rfl rfl⟩

/-! ## Temperatures -/

/-- Claim C9: `celsiusToFahrenheit c` is `c * 1.8 + 32` and `celsiusToKelvin c`
is `c + 273` in `float64` arithmetic, 273 not being the `float64` of 273.15;
`celsiusToFahrenheit` maps 0 to 32 and 100 to 212, whether the product and the
sum are fused or not, and `celsiusToKelvin` maps 0 to 273 and -273 to 0. -/
theorem temperature_conversions :
    (∀ c : F64, celsiusToFahrenheit c
        = F64.add (F64.mul c (F64.ofQuotient 18 10)) (F64.ofInt 32)) ∧
      (∀ c : F64, celsiusToFahrenheitFused c
        = F64.fma c (F64.ofQuotient 18 10) (F64.ofInt 32)) ∧
      (∀ c : F64, celsiusToKelvin c = F64.add c (F64.ofInt 273)) ∧
      F64.ofInt 273 ≠ F64.ofQuotient 27315 100 ∧
      celsiusToFahrenheit (F64.ofInt 0) = F64.ofInt 32 ∧
      celsiusToFahrenheit (F64.ofInt 100) = F64.ofInt 212 ∧
      celsiusToFahrenheitFused (F64.ofInt 0) = F64.ofInt 32 ∧
      celsiusToFahrenheitFused (F64.ofInt 100) = F64.ofInt 212 ∧
      celsiusToKelvin (F64.ofInt 0) = F64.ofInt 273 ∧
      celsiusToKelvin (F64.ofInt (-273)) = F64.ofInt 0 ∧
      F64.ofInt 0 = F64.fin false 0 (-1074) ∧
      F64.ofInt 32 = F64.fin false (32 * 2 ^ 47) (-47) ∧
      F64.ofInt 212 = F64.fin false (212 * 2 ^ 45) (-45) ∧
      F64.ofInt 273 = F64.fin false (273 * 2 ^ 44) (-44) := by
  refine ⟨fun _ => rfl, fun _ => rfl, fun _ => rfl, ?_, ?_, ?_, ?_, ?_, ?_, ?_, ?_, ?_, ?_, ?_⟩ <;>
    decide!

/-- Claim C10: when the answer of the weather service decodes, the result of
`getTemperatureByLocation` has the decoded `temp_c` as `TempC`, and
`celsiusToFahrenheit` and `celsiusToKelvin` of it as `TempF` and `TempK`; two
decoded answers with the same `temp_c` give the same result, whatever their
`temp_f` and their other fields are. -/
theorem temperature_from_celsius_only (up1 up2 : Upstream) (location1 location2 : String)
    (resp1 resp2 : HTTPResponse) (body1 body2 : String) (decoded1 decoded2 : WeatherAPIResponse)
    (hget1 : up1.Get (weatherAPIBaseURL ++ "?key=" ++ weatherAPIKey ++ "&q="
      ++ QueryEscape location1 ++ "&aqi=no") = Except.ok resp1)
    (hbody1 : resp1.Body = Except.ok body1) (hstatus1 : resp1.StatusCode = StatusOK)
    (hdecoded1 : up1.unmarshalWeather body1 = Except.ok decoded1)
    (hget2 : up2.Get (weatherAPIBaseURL ++ "?key=" ++ weatherAPIKey ++ "&q="
      ++ QueryEscape location2 ++ "&aqi=no") = Except.ok resp2)
    (hbody2 : resp2.Body = Except.ok body2) (hstatus2 : resp2.StatusCode = StatusOK)
    (hdecoded2 : up2.unmarshalWeather body2 = Except.ok decoded2)
    (hsame : decoded1.Current.TempC = decoded2.Current.TempC) :
    getTemperatureByLocation up1 location1
        = Except.ok (TemperatureResponse.mk decoded1.Current.TempC
            (celsiusToFahrenheit decoded1.Current.TempC)
            (celsiusToKelvin decoded1.Current.TempC)) ∧
      getTemperatureByLocation up1 location1 = getTemperatureByLocation up2 location2 := by
  have h1 := getTemperatureByLocation_decoded up1 location1 resp1 body1 decoded1 hget1 hbody1
    hstatus1 hdecoded1
  have h2 := getTemperatureByLocation_decoded up2 location2 resp2 body2 decoded2 hget2 hbody2
    hstatus2 hdecoded2
  refine ⟨h1, ?_⟩
  rw [h1, h2, hsame]

theorem temperature_from_celsius_only_witness :
    (saoPauloWeather (F64.ofInt 77)).Current.TempF ≠ (saoPauloWeather (F64.ofInt 0)).Current.TempF ∧
      getTemperatureByLocation (fairUpstream (F64.ofInt 77)) "São Paulo"
        = Except.ok (TemperatureResponse.mk (saoPauloWeather (F64.ofInt 77)).Current.TempC
            (celsiusToFahrenheit (saoPauloWeather (F64.ofInt 77)).Current.TempC)
            (celsiusToKelvin (saoPauloWeather (F64.ofInt 77)).Current.TempC)) ∧
      getTemperatureByLocation (fairUpstream (F64.ofInt 77)) "São Paulo"
        = getTemperatureByLocation (fairUpstream (F64.ofInt 0)) "Osasco" :=
  ⟨by decide,
    temperature_from_celsius_only (fairUpstream (F64.ofInt 77)) (fairUpstream (F64.ofInt 0))
      "São Paulo" "Osasco"
      (HTTPResponse.mk StatusOK (Except.ok "\x7b\"current\": \x7b\"temp_c\": 25\x7d\x7d"))
      (HTTPResponse.mk StatusOK (Except.ok "\x7b\"current\": \x7b\"temp_c\": 25\x7d\x7d"))
      "\x7b\"current\": \x7b\"temp_c\": 25\x7d\x7d" "\x7b\"current\": \x7b\"temp_c\": 25\x7d\x7d"
      (saoPauloWeather (F64.ofInt 77)) (saoPauloWeather (F64.ofInt 0))
      rfl rfl rfl rfl rfl rfl rfl rfl rfl⟩

end LabCloudrun
